import Mathlib

/-!
Verification of the `beam-doctor` core: a paraxial beam-propagation model
composed with a combinatorial two-lens telescope search and a feasibility
filter.  The repository snapshot contains only the example notebook
(`TelescopeCalculatorExample.ipynb`) and the README; the function library
`BeamDoctorFunctions.py` itself (functions `beamprofiler`, `telescope`,
`lensconfigs`, `tryall`, `filterall`, `beamdoctor`) is not present, so the
core operations below are modelled from the specification and checked
against the concrete input/output behaviour recorded in the notebook.
All numerics are embedded as exact rationals (`ℚ`).
-/

/-- Modelled from the spec: the 1-D beam state (radius in mm, signed
divergence half-angle in rad) used by `telescope` in the missing
`BeamDoctorFunctions.py`. -/
structure BeamProfile where
  radius : ℚ
  divergence : ℚ
deriving DecidableEq, Repr

/-- Modelled from the spec: an ordered two-lens system, `f1` then free
space of length `separation` then `f2` (all in mm). -/
structure TelescopeConfig where
  f1 : ℚ
  f2 : ℚ
  separation : ℚ
deriving DecidableEq, Repr

/-- Modelled from the spec: output-beam tolerances (radius bounds in mm,
divergence bound in rad, compared against the absolute value). -/
structure ToleranceSpec where
  radius_min : ℚ
  radius_max : ℚ
  divergence_max : ℚ
deriving DecidableEq, Repr

/-- Modelled from the spec: an evaluated candidate, pairing a telescope
configuration with the output beam it produces. -/
structure CandidateResult where
  config : TelescopeConfig
  output : BeamProfile
deriving DecidableEq, Repr

/-- Modelled from the spec: the `telescope` function of the missing
`BeamDoctorFunctions.py` — paraxial ray transfer through lens `f1`, free
space `separation`, lens `f2`:
first-lens refraction `theta1 = divergence - radius / f1`, free-space
propagation `radius2 = radius + theta1 * separation`, second-lens
refraction `theta_out = theta1 - radius2 / f2`. -/
def propagate (input : BeamProfile) (config : TelescopeConfig) : BeamProfile :=
  let theta1 := input.divergence - input.radius / config.f1
  let radius2 := input.radius + theta1 * config.separation
  { radius := radius2, divergence := theta1 - radius2 / config.f2 }

/-- Modelled from the spec: the separation-sampling policy of
`lensconfigs` (an open question in the spec, which mandates an explicit
window/step configuration): sample `2 * halfCount + 1` equally spaced
separations centred on the nominal `d0 = f1 + f2`.  The notebook's
resolution knob `dpm = 100` corresponds to `halfCount = 5`, `step = 20`
(a symmetric window `d0 ± 100`), which reproduces the notebook's output
grid exactly. -/
structure SeparationPolicy where
  halfCount : ℕ
  step : ℚ
deriving DecidableEq, Repr

/-- Modelled from the spec: the raw symmetric window of candidate
separations centred on `d0`, before discarding non-positive values. -/
def sepWindow (d0 : ℚ) (p : SeparationPolicy) : List ℚ :=
  (List.range (2 * p.halfCount + 1)).map
    (fun (k : ℕ) => d0 + ((k : ℚ) - (p.halfCount : ℚ)) * p.step)

/-- Modelled from the spec: the surviving sampled separations for a lens
pair with nominal separation `d0`: the symmetric window with every
separation `≤ 0` discarded. -/
def separations (d0 : ℚ) (p : SeparationPolicy) : List ℚ :=
  (sepWindow d0 p).filter (fun d => decide (0 < d))

/-- Modelled from the spec: the `lensconfigs` candidate generator of the
missing `BeamDoctorFunctions.py` — one `TelescopeConfig` per ordered pair
`(f1, f2)` and surviving sampled separation, outer loop over `inventory1`
in input order, middle loop over `inventory2` in input order, inner loop
over separations in ascending order. -/
def generate (inventory1 inventory2 : List ℚ) (p : SeparationPolicy) :
    List TelescopeConfig :=
  inventory1.flatMap (fun f1 =>
    inventory2.flatMap (fun f2 =>
      (separations (f1 + f2) p).map (fun d => ⟨f1, f2, d⟩)))

/-- Modelled from the spec: the `tryall` evaluator of the missing
`BeamDoctorFunctions.py` — apply the propagation model to every candidate
in order. -/
def evaluate (input : BeamProfile) (candidates : List TelescopeConfig) :
    List CandidateResult :=
  candidates.map (fun c => ⟨c, propagate input c⟩)

/-- Modelled from the spec: the feasibility predicate of `filterall` —
`radius_min ≤ output.radius ≤ radius_max` and
`|output.divergence| ≤ divergence_max`. -/
def meets (tol : ToleranceSpec) (r : CandidateResult) : Prop :=
  tol.radius_min ≤ r.output.radius ∧ r.output.radius ≤ tol.radius_max ∧
    |r.output.divergence| ≤ tol.divergence_max

instance (tol : ToleranceSpec) (r : CandidateResult) : Decidable (meets tol r) := by
  unfold meets; infer_instance

/-- Modelled from the spec: the `filterall` feasibility filter of the
missing `BeamDoctorFunctions.py` — a stable predicate filter keeping
exactly the results within tolerance. -/
def filterall (results : List CandidateResult) (tol : ToleranceSpec) :
    List CandidateResult :=
  results.filter (fun r => decide (meets tol r))

/-- Modelled from the spec: the composition generator → evaluator →
filter, the feasible set handed to the caller. -/
def feasibleSet (input : BeamProfile) (inventory1 inventory2 : List ℚ)
    (p : SeparationPolicy) (tol : ToleranceSpec) : List CandidateResult :=
  filterall (evaluate input (generate inventory1 inventory2 p)) tol

/-- Modelled from the spec: the error taxonomy of the core — a zero focal
length in an inventory, or `radius_min > radius_max`. -/
inductive CoreError where
  | invalidLens
  | invalidTolerance
deriving DecidableEq, Repr

/-- Modelled from the spec: the `beamdoctor` orchestrator of the missing
`BeamDoctorFunctions.py` — validate the inventories (no zero focal
length) and the tolerance (`radius_min ≤ radius_max`) up front, failing
fast before any search, then compose generator, evaluator and filter. -/
def beamdoctor (input : BeamProfile) (inventory1 inventory2 : List ℚ)
    (p : SeparationPolicy) (tol : ToleranceSpec) :
    Except CoreError (List CandidateResult) :=
  if (0 : ℚ) ∈ inventory1 ∨ (0 : ℚ) ∈ inventory2 then
    Except.error CoreError.invalidLens
  else if tol.radius_max < tol.radius_min then
    Except.error CoreError.invalidTolerance
  else
    Except.ok (feasibleSet input inventory1 inventory2 p tol)

/-- Mean of a list of rationals (0 for the empty list), used by the
ordinary-least-squares slope below. -/
def mean (xs : List ℚ) : ℚ := xs.sum / xs.length

/-- Modelled from the spec: the slope of the ordinary-least-squares fit
used by the external `beamprofiler` collaborator (`fit_divergence`); the
collaborator returns `arctan` of this slope, which for the tiny slopes at
hand lies within `10^-12` below the slope itself. -/
def olsSlope (samples : List (ℚ × ℚ)) : ℚ :=
  let xm := mean (samples.map Prod.fst)
  let ym := mean (samples.map Prod.snd)
  (samples.map (fun s => (s.1 - xm) * (s.2 - ym))).sum /
    (samples.map (fun s => (s.1 - xm) ^ 2)).sum

/-- The notebook's measured y-profile samples: distances in mm paired
with radii (half the measured diameters) in mm. -/
def ydata : List (ℚ × ℚ) := [(0, 0.3675), (50, 0.365), (100, 0.3525), (240, 0.37)]

/-- The notebook's concave (first) cylindrical-lens inventory, mm. -/
def cylcave : List ℚ := [-50, -75, -100, -150, -200, -400, -1000]

/-- The notebook's convex (second) cylindrical-lens inventory, mm. -/
def cylvex : List ℚ := [50, 75, 100, 150, 200, 250, 300, 400, 500, 1000]

/-- The separation policy matching the notebook's `dpm = 100` resolution:
window `d0 ± 100` sampled at step 20. -/
def dpm100 : SeparationPolicy := ⟨5, 20⟩

/-- The 14 candidates emitted before `⟨-50, 100, 50⟩` in the y-profile
search. -/
def ypre : List TelescopeConfig :=
  [⟨-50, 50, 20⟩, ⟨-50, 50, 40⟩, ⟨-50, 50, 60⟩, ⟨-50, 50, 80⟩, ⟨-50, 50, 100⟩,
   ⟨-50, 75, 5⟩, ⟨-50, 75, 25⟩, ⟨-50, 75, 45⟩, ⟨-50, 75, 65⟩, ⟨-50, 75, 85⟩,
   ⟨-50, 75, 105⟩, ⟨-50, 75, 125⟩, ⟨-50, 100, 10⟩, ⟨-50, 100, 30⟩]

/-- The candidates emitted after `⟨-50, 100, 50⟩` in the y-profile
search. -/
def ytail : List TelescopeConfig :=
  (([70, 90, 110, 130, 150] : List ℚ).map fun d => (⟨-50, 100, d⟩ : TelescopeConfig)) ++
    (([150, 200, 250, 300, 400, 500, 1000] : List ℚ).flatMap fun f2 =>
      (separations (-50 + f2) dpm100).map fun d => (⟨-50, f2, d⟩ : TelescopeConfig)) ++
    generate [-75, -100, -150, -200, -400, -1000] cylvex dpm100

section Helpers

/-- Unfolding lemma for `propagate` as a record equation. -/
theorem propagate_eq (input : BeamProfile) (c : TelescopeConfig) :
    propagate input c =
      ⟨input.radius + (input.divergence - input.radius / c.f1) * c.separation,
        (input.divergence - input.radius / c.f1) -
          (input.radius + (input.divergence - input.radius / c.f1) * c.separation) / c.f2⟩ :=
  rfl

theorem evaluate_nil (input : BeamProfile) : evaluate input [] = [] := rfl

theorem evaluate_cons (input : BeamProfile) (c : TelescopeConfig)
    (cs : List TelescopeConfig) :
    evaluate input (c :: cs) = ⟨c, propagate input c⟩ :: evaluate input cs := rfl

theorem evaluate_append (input : BeamProfile) (a b : List TelescopeConfig) :
    evaluate input (a ++ b) = evaluate input a ++ evaluate input b :=
  List.map_append _ a b

theorem filterall_nil (tol : ToleranceSpec) : filterall [] tol = [] := rfl

theorem filterall_cons_of_meets {tol : ToleranceSpec} {r : CandidateResult}
    (rs : List CandidateResult) (h : meets tol r) :
    filterall (r :: rs) tol = r :: filterall rs tol := by
  unfold filterall
  rw [List.filter_cons_of_pos (by simpa using h)]

theorem filterall_cons_of_not_meets {tol : ToleranceSpec} {r : CandidateResult}
    (rs : List CandidateResult) (h : ¬ meets tol r) :
    filterall (r :: rs) tol = filterall rs tol := by
  unfold filterall
  rw [List.filter_cons_of_neg (by simpa using h)]

theorem filterall_append (a b : List CandidateResult) (tol : ToleranceSpec) :
    filterall (a ++ b) tol = filterall a tol ++ filterall b tol :=
  List.filter_append a b

theorem filterall_eq_nil {rs : List CandidateResult} {tol : ToleranceSpec}
    (h : ∀ r ∈ rs, ¬ meets tol r) : filterall rs tol = [] := by
  unfold filterall
  exact List.filter_eq_nil_iff.mpr (by simpa using h)

theorem mem_filterall {rs : List CandidateResult} {tol : ToleranceSpec}
    {r : CandidateResult} : r ∈ filterall rs tol ↔ r ∈ rs ∧ meets tol r := by
  unfold filterall
  simp [List.mem_filter]

theorem mem_generate {inv1 inv2 : List ℚ} {p : SeparationPolicy}
    {c : TelescopeConfig} :
    c ∈ generate inv1 inv2 p ↔
      ∃ f1 ∈ inv1, ∃ f2 ∈ inv2, ∃ d ∈ separations (f1 + f2) p, c = ⟨f1, f2, d⟩ := by
  unfold generate
  simp only [List.mem_flatMap, List.mem_map]
  constructor
  · rintro ⟨f1, h1, f2, h2, d, hd, rfl⟩
    exact ⟨f1, h1, f2, h2, d, hd, rfl⟩
  · rintro ⟨f1, h1, f2, h2, d, hd, rfl⟩
    exact ⟨f1, h1, f2, h2, d, hd, rfl⟩

end Helpers

/-- C1: for every input `BeamProfile` and every `TelescopeConfig` with
`f1 ≠ 0` and `f2 ≠ 0`, `propagate` returns
`BeamProfile{radius := radius2, divergence := theta_out}` where
`theta1 = divergence - radius / f1`, `radius2 = radius + theta1 * separation`
and `theta_out = theta1 - radius2 / f2`.  Purity and determinism are
inherent: `propagate` is a mathematical function of its two arguments. -/
theorem propagate_formula (input : BeamProfile) (config : TelescopeConfig)
    (hf1 : config.f1 ≠ 0) (hf2 : config.f2 ≠ 0) :
    propagate input config =
      { radius := input.radius + (input.divergence - input.radius / config.f1) * config.separation,
        divergence := (input.divergence - input.radius / config.f1) -
          (input.radius +
            (input.divergence - input.radius / config.f1) * config.separation) / config.f2 } :=
  rfl

/-- Witness for C1: the formula evaluated at the concrete input
`radius = 1`, `divergence = 1`, `f1 = 2`, `f2 = 4`, `separation = 3`. -/
theorem propagate_formula_witness : propagate ⟨1, 1⟩ ⟨2, 4, 3⟩ = ⟨5/2, -1/8⟩ := by
  rw [propagate_formula ⟨1, 1⟩ ⟨2, 4, 3⟩ (by norm_num) (by norm_num)]
  simp only [BeamProfile.mk.injEq]
  norm_num

/-- C2: for nonzero focal lengths with `0 < f1 + f2` and a perfectly
collimated input (divergence exactly 0), propagation through the afocal
pair at separation `f1 + f2` leaves the output collimated
(divergence exactly 0) and the output radius is
`input.radius * (f2 / f1) * (-1)`, whose magnitude is the input radius
scaled by the magnification magnitude `|f2 / f1|`. -/
theorem afocal_identity (input : BeamProfile) (f1 f2 : ℚ)
    (hf1 : f1 ≠ 0) (hf2 : f2 ≠ 0) (hpos : 0 < f1 + f2)
    (hdiv : input.divergence = 0) :
    (propagate input ⟨f1, f2, f1 + f2⟩).divergence = 0 ∧
    (propagate input ⟨f1, f2, f1 + f2⟩).radius = input.radius * (f2 / f1) * (-1) ∧
    |(propagate input ⟨f1, f2, f1 + f2⟩).radius| = |input.radius| * |f2 / f1| := by
  have hrad : (propagate input ⟨f1, f2, f1 + f2⟩).radius =
      input.radius * (f2 / f1) * (-1) := by
    rw [propagate_eq]
    show input.radius + (input.divergence - input.radius / f1) * (f1 + f2) = _
    rw [hdiv]
    field_simp
    ring
  have hdivg : (propagate input ⟨f1, f2, f1 + f2⟩).divergence = 0 := by
    rw [propagate_eq]
    show (input.divergence - input.radius / f1) -
        (input.radius + (input.divergence - input.radius / f1) * (f1 + f2)) / f2 = 0
    rw [hdiv]
    field_simp
    ring
  refine ⟨hdivg, hrad, ?_⟩
  rw [hrad, abs_mul, abs_mul, abs_neg, abs_one, mul_one]

/-- Witness for C2: a collimated beam of radius 2 through the afocal pair
`f1 = 1`, `f2 = 1` at separation 2 stays collimated with radius `-2`. -/
theorem afocal_identity_witness :
    (propagate ⟨2, 0⟩ ⟨1, 1, 2⟩).divergence = 0 ∧
      (propagate ⟨2, 0⟩ ⟨1, 1, 2⟩).radius = -2 := by
  have h := afocal_identity ⟨2, 0⟩ 1 1 (by norm_num) (by norm_num) (by norm_num) rfl
  rw [show (1 : ℚ) + 1 = 2 from by norm_num] at h
  exact ⟨h.1, by rw [h.2.1]; norm_num⟩

/-- C4: a result `r` of the input sequence appears in the output of the
feasibility filter iff `radius_min ≤ r.output.radius ≤ radius_max` and
`|r.output.divergence| ≤ divergence_max`; the filter preserves the input
order (its output is a sublist of its input) and returns the empty
sequence, not an error, when nothing qualifies. -/
theorem filterall_correct (results : List CandidateResult) (tol : ToleranceSpec) :
    (∀ r ∈ results,
      (r ∈ filterall results tol ↔
        tol.radius_min ≤ r.output.radius ∧ r.output.radius ≤ tol.radius_max ∧
          |r.output.divergence| ≤ tol.divergence_max)) ∧
    (filterall results tol).Sublist results ∧
    ((∀ r ∈ results,
        ¬(tol.radius_min ≤ r.output.radius ∧ r.output.radius ≤ tol.radius_max ∧
          |r.output.divergence| ≤ tol.divergence_max)) →
      filterall results tol = []) := by
  refine ⟨?_, List.filter_sublist results, ?_⟩
  · intro r hr
    rw [mem_filterall]
    exact ⟨fun h => h.2, fun h => ⟨hr, h⟩⟩
  · intro h
    exact filterall_eq_nil fun r hr => h r hr

/-- Witness for C4: a result with radius 1 and divergence 0 is kept by the
tolerance `radius_min = 0`, `radius_max = 2`, `divergence_max = 1`. -/
theorem filterall_correct_witness :
    (⟨⟨-50, 75, 25⟩, ⟨1, 0⟩⟩ : CandidateResult) ∈
      filterall [⟨⟨-50, 75, 25⟩, ⟨1, 0⟩⟩] ⟨0, 2, 1⟩ := by
  have h := (filterall_correct [⟨⟨-50, 75, 25⟩, ⟨1, 0⟩⟩] ⟨0, 2, 1⟩).1
    ⟨⟨-50, 75, 25⟩, ⟨1, 0⟩⟩ (by simp)
  exact h.mpr (by norm_num)

/-- C5: the evaluator's output order matches its candidate sequence (the
configs of `evaluate input candidates`, in order, are exactly
`candidates`), the filter never reorders its input (its output is a
sublist of its input), and hence the feasible sequence produced by the
orchestrator's composition is a subsequence of the full evaluated
sequence in generation order. -/
theorem order_preservation (input : BeamProfile) (candidates : List TelescopeConfig)
    (results : List CandidateResult) (inv1 inv2 : List ℚ) (p : SeparationPolicy)
    (tol : ToleranceSpec) :
    (evaluate input candidates).map CandidateResult.config = candidates ∧
    (filterall results tol).Sublist results ∧
    (filterall (evaluate input (generate inv1 inv2 p)) tol).Sublist
      (evaluate input (generate inv1 inv2 p)) := by
  refine ⟨?_, List.filter_sublist results, List.filter_sublist _⟩
  unfold evaluate
  rw [List.map_map]
  simp [Function.comp_def]

/-- C7: a lens inventory containing a focal length of exactly 0 makes the
core fail validation with the invalid-lens error before any propagation
is attempted (the orchestrator returns the error and no result list). -/
theorem zero_focal_rejected (input : BeamProfile) (inv1 inv2 : List ℚ)
    (p : SeparationPolicy) (tol : ToleranceSpec)
    (h : (0 : ℚ) ∈ inv1 ∨ (0 : ℚ) ∈ inv2) :
    beamdoctor input inv1 inv2 p tol = Except.error CoreError.invalidLens := by
  unfold beamdoctor
  rw [if_pos h]

/-- Witness for C7: a zero focal length in the first inventory is
rejected. -/
theorem zero_focal_rejected_witness :
    beamdoctor ⟨1, 0⟩ [0] [75] dpm100 ⟨0, 1, 1⟩ = Except.error CoreError.invalidLens :=
  zero_focal_rejected ⟨1, 0⟩ [0] [75] dpm100 ⟨0, 1, 1⟩ (Or.inl (by simp))

/-- C8: if either inventory is empty, the generator yields the empty
sequence, and the evaluator and filter consequently yield empty
sequences; no error arises (with valid inventories and tolerance the
orchestrator returns `ok []`). -/
theorem empty_inventory_empty (input : BeamProfile) (inv1 inv2 : List ℚ)
    (p : SeparationPolicy) (tol : ToleranceSpec) (h : inv1 = [] ∨ inv2 = []) :
    generate inv1 inv2 p = [] ∧
    evaluate input (generate inv1 inv2 p) = [] ∧
    filterall (evaluate input (generate inv1 inv2 p)) tol = [] ∧
    ((0 : ℚ) ∉ inv1 → (0 : ℚ) ∉ inv2 → ¬ tol.radius_max < tol.radius_min →
      beamdoctor input inv1 inv2 p tol = Except.ok []) := by
  have hg : generate inv1 inv2 p = [] := by
    rcases h with rfl | rfl
    · rfl
    · unfold generate; simp
  refine ⟨hg, by rw [hg]; rfl, by rw [hg]; rfl, fun h1 h2 h3 => ?_⟩
  unfold beamdoctor feasibleSet
  rw [if_neg (by rintro (hc | hc); exacts [h1 hc, h2 hc]), if_neg h3, hg]
  rfl

/-- Witness for C8: an empty first inventory yields no candidates and the
orchestrator returns `ok []`. -/
theorem empty_inventory_empty_witness :
    generate [] [75] dpm100 = [] ∧
      beamdoctor ⟨1, 0⟩ [] [75] dpm100 ⟨0, 1, 1⟩ = Except.ok [] := by
  have h := empty_inventory_empty ⟨1, 0⟩ [] [75] dpm100 ⟨0, 1, 1⟩ (Or.inl rfl)
  exact ⟨h.1, h.2.2.2 (by simp) (by decide) (by norm_num)⟩

/-- C9: a tolerance with `radius_min > radius_max` is reported as a
configuration error by the orchestrator before any search runs (given
inventories that pass the earlier zero-lens validation, the result is
the invalid-tolerance error and no candidate is generated or
evaluated). -/
theorem invalid_tolerance_rejected (input : BeamProfile) (inv1 inv2 : List ℚ)
    (p : SeparationPolicy) (tol : ToleranceSpec)
    (h1 : (0 : ℚ) ∉ inv1) (h2 : (0 : ℚ) ∉ inv2)
    (h : tol.radius_max < tol.radius_min) :
    beamdoctor input inv1 inv2 p tol = Except.error CoreError.invalidTolerance := by
  unfold beamdoctor
  rw [if_neg (by rintro (hc | hc); exacts [h1 hc, h2 hc]), if_pos h]

/-- Witness for C9: `radius_min = 2 > 1 = radius_max` is rejected. -/
theorem invalid_tolerance_rejected_witness :
    beamdoctor ⟨1, 0⟩ [-50] [75] dpm100 ⟨2, 1, 1⟩ =
      Except.error CoreError.invalidTolerance :=
  invalid_tolerance_rejected ⟨1, 0⟩ [-50] [75] dpm100 ⟨2, 1, 1⟩
    (by decide) (by decide) (by norm_num)

theorem meets_def (tol : ToleranceSpec) (r : CandidateResult) :
    meets tol r ↔
      (tol.radius_min ≤ r.output.radius ∧ r.output.radius ≤ tol.radius_max ∧
        |r.output.divergence| ≤ tol.divergence_max) :=
  Iff.rfl

theorem range_eleven : List.range (2 * dpm100.halfCount + 1) =
    [0, 1, 2, 3, 4, 5, 6, 7, 8, 9, 10] := by decide

/-- Sampled separations for nominal `d0 = 25` under the `dpm100` policy. -/
theorem separations_d25 : separations 25 dpm100 = [5, 25, 45, 65, 85, 105, 125] := by
  rw [separations, sepWindow, range_eleven]
  norm_num [List.filter, dpm100]

/-- Sampled separations for nominal `d0 = 0` under the `dpm100` policy. -/
theorem separations_d0 : separations 0 dpm100 = [20, 40, 60, 80, 100] := by
  rw [separations, sepWindow, range_eleven]
  norm_num [List.filter, dpm100]

/-- Sampled separations for nominal `d0 = 50` under the `dpm100` policy. -/
theorem separations_d50 : separations 50 dpm100 =
    [10, 30, 50, 70, 90, 110, 130, 150] := by
  rw [separations, sepWindow, range_eleven]
  norm_num [List.filter, dpm100]

/-- The candidate list for the single-pair inventories of the x-beam
scenario. -/
theorem generate_x : generate [-50] [75] dpm100 =
    [⟨-50, 75, 5⟩, ⟨-50, 75, 25⟩, ⟨-50, 75, 45⟩, ⟨-50, 75, 65⟩,
      ⟨-50, 75, 85⟩, ⟨-50, 75, 105⟩, ⟨-50, 75, 125⟩] := by
  unfold generate
  simp only [List.flatMap_cons, List.flatMap_nil, List.append_nil]
  rw [show (-50 : ℚ) + 75 = 25 from by norm_num, separations_d25]
  rfl

/-- C3: the generator emits exactly one `TelescopeConfig` per ordered pair
`(f1 from inventory1, f2 from inventory2)` and per sampled separation
`> 0`, where the separations for a pair are drawn from a finite window
symmetric about `d0 = f1 + f2` with separations `≤ 0` discarded, and the
emission order is the nested loop: outer over `inventory1` in input
order, middle over `inventory2` in input order, inner over separations in
ascending order (for a positive step). -/
theorem generate_window_spec (inv1 inv2 : List ℚ) (p : SeparationPolicy)
    (hstep : 0 < p.step) :
    (generate inv1 inv2 p =
      inv1.flatMap (fun f1 => inv2.flatMap (fun f2 =>
        ((sepWindow (f1 + f2) p).filter (fun d => decide (0 < d))).map
          (fun d => ⟨f1, f2, d⟩)))) ∧
    (∀ d0 : ℚ, ∀ d ∈ separations d0 p, 0 < d) ∧
    (∀ d0 : ℚ, (separations d0 p).Chain' (· < ·)) ∧
    (∀ d0 : ℚ, ∀ d ∈ sepWindow d0 p, 2 * d0 - d ∈ sepWindow d0 p) := by
  refine ⟨rfl, ?_, ?_, ?_⟩
  · intro d0 d hd
    unfold separations at hd
    rw [List.mem_filter] at hd
    simpa using hd.2
  · intro d0
    rw [List.chain'_iff_pairwise]
    refine List.Pairwise.sublist (List.filter_sublist _) ?_
    unfold sepWindow
    rw [List.pairwise_map]
    refine (List.pairwise_lt_range _).imp (fun {i j} hij => ?_)
    have hij' : (i : ℚ) < (j : ℚ) := by exact_mod_cast hij
    have hm := mul_lt_mul_of_pos_right
      (sub_lt_sub_right hij' (p.halfCount : ℚ)) hstep
    linarith
  · intro d0 d hd
    unfold sepWindow at hd ⊢
    rw [List.mem_map] at hd ⊢
    obtain ⟨k, hk, rfl⟩ := hd
    rw [List.mem_range] at hk
    refine ⟨2 * p.halfCount - k, by rw [List.mem_range]; omega, ?_⟩
    rw [Nat.cast_sub (by omega : k ≤ 2 * p.halfCount)]
    push_cast
    ring

/-- Witness for C3: under the `dpm100` policy, the separations sampled
around `d0 = 25` are exactly `[5, 25, 45, 65, 85, 105, 125]` (positive,
ascending). -/
theorem generate_window_spec_witness :
    separations 25 dpm100 = [5, 25, 45, 65, 85, 105, 125] ∧
      (separations 25 dpm100).Chain' (· < ·) :=
  ⟨separations_d25, (generate_window_spec [-50] [75] dpm100 (by norm_num [dpm100])).2.2.1 25⟩

/-- Exact output beam for the x-scenario's feasible configuration. -/
theorem propagate_x25 : propagate ⟨0.403, 0.0000279⟩ ⟨-50, 75, 25⟩ =
    ⟨0.6051975, 0.0000186⟩ := by
  simp only [propagate_eq, BeamProfile.mk.injEq]
  constructor <;> norm_num

/-- C6: the full pipeline on the measured x beam
(`radius 0.403`, `divergence 2.79e-5`), inventories `[-50]` and `[75]`,
the `dpm100` separation window (which includes 25 mm) and tolerance
`radius ∈ [0.6, 1.2]`, `divergence_max = 0.002°` in rad (the hypotheses
bracket `0.002 * π / 180 ≈ 3.49e-5` in `[3.4e-5, 3.6e-5]`) yields exactly
one feasible result: `f1 = -50`, `f2 = 75`, `separation = 25`, output
radius `0.6051975 ≈ 0.605` and output divergence `1.86e-5` rad, which is
`≈ 0.001°` (between `0.0005°` and `0.0015°`). -/
theorem endtoend_x_unique (T : ℚ) (hT1 : 0.000034 ≤ T) (hT2 : T ≤ 0.000036) :
    beamdoctor ⟨0.403, 0.0000279⟩ [-50] [75] dpm100 ⟨0.6, 1.2, T⟩ =
      Except.ok [⟨⟨-50, 75, 25⟩, ⟨0.6051975, 0.0000186⟩⟩] ∧
    |(0.6051975 : ℚ) - 0.605| ≤ 0.0005 ∧
    (0.000009 : ℚ) ≤ 0.0000186 ∧ (0.0000186 : ℚ) ≤ 0.000026 := by
  refine ⟨?_,
    by rw [abs_of_nonneg (by norm_num : (0 : ℚ) ≤ 0.6051975 - 0.605)]; norm_num,
    by norm_num, by norm_num⟩
  unfold beamdoctor
  rw [if_neg (by decide), if_neg (by norm_num)]
  unfold feasibleSet
  rw [generate_x]
  simp only [evaluate_cons, evaluate_nil]
  rw [propagate_x25]
  have hp5 : ¬ meets ⟨0.6, 1.2, T⟩
      ⟨⟨-50, 75, 5⟩, propagate ⟨0.403, 0.0000279⟩ ⟨-50, 75, 5⟩⟩ := by
    intro hm
    simp only [meets_def, propagate_eq] at hm
    norm_num at hm
  have hp25 : meets ⟨0.6, 1.2, T⟩
      ⟨⟨-50, 75, 25⟩, (⟨0.6051975, 0.0000186⟩ : BeamProfile)⟩ := by
    simp only [meets_def]
    refine ⟨by norm_num, by norm_num, ?_⟩
    rw [abs_of_nonneg (by norm_num : (0 : ℚ) ≤ 0.0000186)]
    linarith
  have hp45 : ¬ meets ⟨0.6, 1.2, T⟩
      ⟨⟨-50, 75, 45⟩, propagate ⟨0.403, 0.0000279⟩ ⟨-50, 75, 45⟩⟩ := by
    intro hm
    simp only [meets_def, propagate_eq, abs_le] at hm
    obtain ⟨-, -, hma, -⟩ := hm
    norm_num at hma
    linarith
  have hp65 : ¬ meets ⟨0.6, 1.2, T⟩
      ⟨⟨-50, 75, 65⟩, propagate ⟨0.403, 0.0000279⟩ ⟨-50, 75, 65⟩⟩ := by
    intro hm
    simp only [meets_def, propagate_eq, abs_le] at hm
    obtain ⟨-, -, hma, -⟩ := hm
    norm_num at hma
    linarith
  have hp85 : ¬ meets ⟨0.6, 1.2, T⟩
      ⟨⟨-50, 75, 85⟩, propagate ⟨0.403, 0.0000279⟩ ⟨-50, 75, 85⟩⟩ := by
    intro hm
    simp only [meets_def, propagate_eq, abs_le] at hm
    obtain ⟨-, -, hma, -⟩ := hm
    norm_num at hma
    linarith
  have hp105 : ¬ meets ⟨0.6, 1.2, T⟩
      ⟨⟨-50, 75, 105⟩, propagate ⟨0.403, 0.0000279⟩ ⟨-50, 75, 105⟩⟩ := by
    intro hm
    simp only [meets_def, propagate_eq] at hm
    norm_num at hm
  have hp125 : ¬ meets ⟨0.6, 1.2, T⟩
      ⟨⟨-50, 75, 125⟩, propagate ⟨0.403, 0.0000279⟩ ⟨-50, 75, 125⟩⟩ := by
    intro hm
    simp only [meets_def, propagate_eq] at hm
    norm_num at hm
  rw [filterall_cons_of_not_meets _ hp5, filterall_cons_of_meets _ hp25,
    filterall_cons_of_not_meets _ hp45, filterall_cons_of_not_meets _ hp65,
    filterall_cons_of_not_meets _ hp85, filterall_cons_of_not_meets _ hp105,
    filterall_cons_of_not_meets _ hp125, filterall_nil]

/-- Witness for C6: the scenario evaluated at the concrete in-range
tolerance `divergence_max = 3.5e-5`. -/
theorem endtoend_x_unique_witness :
    beamdoctor ⟨0.403, 0.0000279⟩ [-50] [75] dpm100 ⟨0.6, 1.2, 0.000035⟩ =
      Except.ok [⟨⟨-50, 75, 25⟩, ⟨0.6051975, 0.0000186⟩⟩] :=
  (endtoend_x_unique 0.000035 (by norm_num) (by norm_num)).1

/-- The exact OLS slope of the y-profile fit. -/
theorem olsSlope_ydata : olsSlope ydata = 7 / 513200 := by
  unfold olsSlope ydata mean
  norm_num [List.sum_cons, List.sum_nil]

theorem generate_cons (f1 : ℚ) (t inv2 : List ℚ) (p : SeparationPolicy) :
    generate (f1 :: t) inv2 p =
      (inv2.flatMap fun f2 =>
        (separations (f1 + f2) p).map fun d => (⟨f1, f2, d⟩ : TelescopeConfig)) ++
      generate t inv2 p := rfl

theorem inner_cons (f1 g : ℚ) (t : List ℚ) (p : SeparationPolicy) :
    ((g :: t).flatMap fun f2 =>
        (separations (f1 + f2) p).map fun d => (⟨f1, f2, d⟩ : TelescopeConfig)) =
      ((separations (f1 + g) p).map fun d => (⟨f1, g, d⟩ : TelescopeConfig)) ++
        t.flatMap (fun f2 =>
          (separations (f1 + f2) p).map fun d => (⟨f1, f2, d⟩ : TelescopeConfig)) := rfl

/-- Structural split of the y-profile candidate list around the first
feasible configuration. -/
theorem generate_y_split :
    generate cylcave cylvex dpm100 = ypre ++ ⟨-50, 100, 50⟩ :: ytail := by
  rw [show cylcave = ((-50 : ℚ) :: [-75, -100, -150, -200, -400, -1000]) from rfl,
    generate_cons,
    show cylvex = ((50 : ℚ) :: (75 : ℚ) :: (100 : ℚ) ::
      [150, 200, 250, 300, 400, 500, 1000]) from rfl,
    inner_cons, inner_cons, inner_cons,
    show (-50 : ℚ) + 50 = 0 from by norm_num,
    show (-50 : ℚ) + 75 = 25 from by norm_num,
    show (-50 : ℚ) + 100 = 50 from by norm_num,
    separations_d0, separations_d25, separations_d50]
  rfl

/-- C10: the full pipeline on the y input beam (radius `0.3675` mm, half
the first measured y diameter; divergence `arctan` of the OLS slope
`7/513200` of the halved y diameters against the distances, bracketed
here by the hypothesis interval `[slope - 10^-12, slope]`, which contains
`arctan slope` since `0 < slope - arctan slope < slope^3 < 10^-12`), with
the notebook's concave and convex inventories, the `dpm100` policy, and
tolerances `radius ∈ [0.6, 1.2]`, `divergence_max = 0.002°` in rad
(bracketed in `[3.4e-5, 3.6e-5]`), yields a feasible set whose first
element is the configuration `f1 = -50`, `f2 = 100`, `separation = 50`
with output radius `≈ 0.736`, and which contains no configuration with
`f1 = -50` and `f2 = 75`. -/
theorem endtoend_y_profile (θ T : ℚ)
    (hθ1 : olsSlope ydata - 0.000000000001 ≤ θ) (hθ2 : θ ≤ olsSlope ydata)
    (hT1 : 0.000034 ≤ T) (hT2 : T ≤ 0.000036) :
    beamdoctor ⟨0.3675, θ⟩ cylcave cylvex dpm100 ⟨0.6, 1.2, T⟩ =
      Except.ok (feasibleSet ⟨0.3675, θ⟩ cylcave cylvex dpm100 ⟨0.6, 1.2, T⟩) ∧
    (feasibleSet ⟨0.3675, θ⟩ cylcave cylvex dpm100 ⟨0.6, 1.2, T⟩).head? =
      some ⟨⟨-50, 100, 50⟩, propagate ⟨0.3675, θ⟩ ⟨-50, 100, 50⟩⟩ ∧
    |(propagate ⟨0.3675, θ⟩ ⟨-50, 100, 50⟩).radius - 0.736| ≤ 0.001 ∧
    ∀ r ∈ feasibleSet ⟨0.3675, θ⟩ cylcave cylvex dpm100 ⟨0.6, 1.2, T⟩,
      ¬(r.config.f1 = -50 ∧ r.config.f2 = 75) := by
  rw [olsSlope_ydata] at hθ1 hθ2
  have hn1 : ¬ meets ⟨0.6, 1.2, T⟩
      ⟨⟨-50, 50, 20⟩, propagate ⟨0.3675, θ⟩ ⟨-50, 50, 20⟩⟩ := by
    intro hm
    simp only [meets_def, propagate_eq] at hm
    obtain ⟨hma, -, -⟩ := hm
    norm_num at hma
    linarith
  have hn2 : ¬ meets ⟨0.6, 1.2, T⟩
      ⟨⟨-50, 50, 40⟩, propagate ⟨0.3675, θ⟩ ⟨-50, 50, 40⟩⟩ := by
    intro hm
    simp only [meets_def, propagate_eq, abs_le] at hm
    obtain ⟨-, -, hma, hmb⟩ := hm
    norm_num at hma hmb
    linarith
  have hn3 : ¬ meets ⟨0.6, 1.2, T⟩
      ⟨⟨-50, 50, 60⟩, propagate ⟨0.3675, θ⟩ ⟨-50, 50, 60⟩⟩ := by
    intro hm
    simp only [meets_def, propagate_eq, abs_le] at hm
    obtain ⟨-, -, hma, hmb⟩ := hm
    norm_num at hma hmb
    linarith
  have hn4 : ¬ meets ⟨0.6, 1.2, T⟩
      ⟨⟨-50, 50, 80⟩, propagate ⟨0.3675, θ⟩ ⟨-50, 50, 80⟩⟩ := by
    intro hm
    simp only [meets_def, propagate_eq, abs_le] at hm
    obtain ⟨-, -, hma, hmb⟩ := hm
    norm_num at hma hmb
    linarith
  have hn5 : ¬ meets ⟨0.6, 1.2, T⟩
      ⟨⟨-50, 50, 100⟩, propagate ⟨0.3675, θ⟩ ⟨-50, 50, 100⟩⟩ := by
    intro hm
    simp only [meets_def, propagate_eq, abs_le] at hm
    obtain ⟨-, -, hma, hmb⟩ := hm
    norm_num at hma hmb
    linarith
  have hn6 : ¬ meets ⟨0.6, 1.2, T⟩
      ⟨⟨-50, 75, 5⟩, propagate ⟨0.3675, θ⟩ ⟨-50, 75, 5⟩⟩ := by
    intro hm
    simp only [meets_def, propagate_eq] at hm
    obtain ⟨hma, -, -⟩ := hm
    norm_num at hma
    linarith
  have hn7 : ¬ meets ⟨0.6, 1.2, T⟩
      ⟨⟨-50, 75, 25⟩, propagate ⟨0.3675, θ⟩ ⟨-50, 75, 25⟩⟩ := by
    intro hm
    simp only [meets_def, propagate_eq] at hm
    obtain ⟨hma, -, -⟩ := hm
    norm_num at hma
    linarith
  have hn8 : ¬ meets ⟨0.6, 1.2, T⟩
      ⟨⟨-50, 75, 45⟩, propagate ⟨0.3675, θ⟩ ⟨-50, 75, 45⟩⟩ := by
    intro hm
    simp only [meets_def, propagate_eq, abs_le] at hm
    obtain ⟨-, -, hma, hmb⟩ := hm
    norm_num at hma hmb
    linarith
  have hn9 : ¬ meets ⟨0.6, 1.2, T⟩
      ⟨⟨-50, 75, 65⟩, propagate ⟨0.3675, θ⟩ ⟨-50, 75, 65⟩⟩ := by
    intro hm
    simp only [meets_def, propagate_eq, abs_le] at hm
    obtain ⟨-, -, hma, hmb⟩ := hm
    norm_num at hma hmb
    linarith
  have hn10 : ¬ meets ⟨0.6, 1.2, T⟩
      ⟨⟨-50, 75, 85⟩, propagate ⟨0.3675, θ⟩ ⟨-50, 75, 85⟩⟩ := by
    intro hm
    simp only [meets_def, propagate_eq, abs_le] at hm
    obtain ⟨-, -, hma, hmb⟩ := hm
    norm_num at hma hmb
    linarith
  have hn11 : ¬ meets ⟨0.6, 1.2, T⟩
      ⟨⟨-50, 75, 105⟩, propagate ⟨0.3675, θ⟩ ⟨-50, 75, 105⟩⟩ := by
    intro hm
    simp only [meets_def, propagate_eq, abs_le] at hm
    obtain ⟨-, -, hma, hmb⟩ := hm
    norm_num at hma hmb
    linarith
  have hn12 : ¬ meets ⟨0.6, 1.2, T⟩
      ⟨⟨-50, 75, 125⟩, propagate ⟨0.3675, θ⟩ ⟨-50, 75, 125⟩⟩ := by
    intro hm
    simp only [meets_def, propagate_eq] at hm
    obtain ⟨-, hma, -⟩ := hm
    norm_num at hma
    linarith
  have hn13 : ¬ meets ⟨0.6, 1.2, T⟩
      ⟨⟨-50, 100, 10⟩, propagate ⟨0.3675, θ⟩ ⟨-50, 100, 10⟩⟩ := by
    intro hm
    simp only [meets_def, propagate_eq] at hm
    obtain ⟨hma, -, -⟩ := hm
    norm_num at hma
    linarith
  have hn14 : ¬ meets ⟨0.6, 1.2, T⟩
      ⟨⟨-50, 100, 30⟩, propagate ⟨0.3675, θ⟩ ⟨-50, 100, 30⟩⟩ := by
    intro hm
    simp only [meets_def, propagate_eq] at hm
    obtain ⟨hma, -, -⟩ := hm
    norm_num at hma
    linarith
  have hpass : meets ⟨0.6, 1.2, T⟩
      ⟨⟨-50, 100, 50⟩, propagate ⟨0.3675, θ⟩ ⟨-50, 100, 50⟩⟩ := by
    simp only [meets_def, propagate_eq]
    refine ⟨?_, ?_, ?_⟩
    · norm_num
      linarith
    · norm_num
      linarith
    · rw [abs_le]
      constructor
      · norm_num
        linarith
      · norm_num
        linarith
  have hnil14 : filterall (evaluate ⟨0.3675, θ⟩ ypre) ⟨0.6, 1.2, T⟩ = [] := by
    refine filterall_eq_nil ?_
    intro r hr
    simp only [ypre, evaluate_cons, evaluate_nil, List.mem_cons,
      List.not_mem_nil, or_false] at hr
    rcases hr with rfl | rfl | rfl | rfl | rfl | rfl | rfl | rfl | rfl | rfl |
      rfl | rfl | rfl | rfl
    exacts [hn1, hn2, hn3, hn4, hn5, hn6, hn7, hn8, hn9, hn10, hn11, hn12, hn13, hn14]
  have hfs : feasibleSet ⟨0.3675, θ⟩ cylcave cylvex dpm100 ⟨0.6, 1.2, T⟩ =
      ⟨⟨-50, 100, 50⟩, propagate ⟨0.3675, θ⟩ ⟨-50, 100, 50⟩⟩ ::
        filterall (evaluate ⟨0.3675, θ⟩ ytail) ⟨0.6, 1.2, T⟩ := by
    unfold feasibleSet
    rw [generate_y_split, evaluate_append, filterall_append, hnil14, List.nil_append,
      evaluate_cons, filterall_cons_of_meets _ hpass]
  refine ⟨?_, ?_, ?_, ?_⟩
  · unfold beamdoctor
    rw [if_neg (by decide), if_neg (by norm_num)]
  · rw [hfs]
    rfl
  · simp only [propagate_eq]
    rw [abs_le]
    constructor
    · norm_num
      linarith
    · norm_num
      linarith
  · intro r hr
    unfold feasibleSet at hr
    rw [mem_filterall] at hr
    obtain ⟨hre, hrm⟩ := hr
    unfold evaluate at hre
    rw [List.mem_map] at hre
    obtain ⟨c, hc, rfl⟩ := hre
    rw [mem_generate] at hc
    obtain ⟨f1, hm1, f2, hm2, d, hd, rfl⟩ := hc
    rintro ⟨hf1, hf2⟩
    have e1 : f1 = -50 := hf1
    have e2 : f2 = 75 := hf2
    subst e1
    subst e2
    rw [show (-50 : ℚ) + 75 = 25 from by norm_num, separations_d25] at hd
    simp only [List.mem_cons, List.not_mem_nil, or_false] at hd
    rcases hd with rfl | rfl | rfl | rfl | rfl | rfl | rfl
    exacts [hn6 hrm, hn7 hrm, hn8 hrm, hn9 hrm, hn10 hrm, hn11 hrm, hn12 hrm]

/-- Witness for C10: the pipeline evaluated at the concrete divergence
`7/513200` and tolerance `3.5e-5`. -/
theorem endtoend_y_profile_witness :
    (feasibleSet ⟨0.3675, 7/513200⟩ cylcave cylvex dpm100 ⟨0.6, 1.2, 0.000035⟩).head? =
      some ⟨⟨-50, 100, 50⟩, propagate ⟨0.3675, 7/513200⟩ ⟨-50, 100, 50⟩⟩ :=
  (endtoend_y_profile (7/513200) 0.000035
    (by rw [olsSlope_ydata]; norm_num) (by rw [olsSlope_ydata])
    (by norm_num) (by norm_num)).2.1
